import Mathlib

/-!
Verification of the NES emulator core (6502-family CPU, memory bus,
cartridge boundary) against its natural-language specification.

The C++ sources are shallowly embedded: 8-bit and 16-bit machine values are
natural numbers, with truncation written explicitly as `% 256` (the effect
of storing into a `uint8_t`), C++ `bool` promotion as `b2n`, and the status
register as a record of six booleans exactly as in `struct status`
(src/cpu/cpu.h).  Each definition mirrors one source function; comments
name the function embedded.
-/

namespace nes

/-- Truncation of an integer to 8 bits, the effect of `static_cast<std::uint8_t>`
(storing a value into a `byte`, src/byte.h). -/
def byteOf (n : Nat) : Nat := n % 256

/-- C++ integral promotion of `bool` (`false ↦ 0`, `true ↦ 1`). -/
def b2n (b : Bool) : Nat := if b then 1 else 0

/-- Embedding of `bitwise_wrapper::set` (byte.h):
`_value = _value & ~(1 << index) | (value << index)`, the assignment back into
the `uint8_t` member truncating to 8 bits.  The complement `~(1 << index)` is
taken at (32-bit) `int` width, which for 8-bit stored values below 2^32 is the
mask written here. -/
def bset (v i : Nat) (b : Bool) : Nat :=
  ((v &&& (0xffffffff ^^^ (1 <<< i))) ||| (b2n b <<< i)) % 256

/-- Embedding of `bitwise_wrapper::shift_left(bool carry)` (byte.h):
records the old bit 7, shifts the stored byte left (truncating on the
assignment back into `uint8_t`), moves `carry` into bit 0, and returns the
pair (new value, shifted-out bit). -/
def bitwise_wrapper.shift_left (v : Nat) (carry : Bool) : Nat × Bool :=
  let new_carry := v.testBit 7
  (bset (byteOf (v <<< 1)) 0 carry, new_carry)

/-- Embedding of `bitwise_wrapper::shift_right(bool carry)` (byte.h):
records the old bit 0, shifts right, moves `carry` into bit 7, and returns
the pair (new value, shifted-out bit). -/
def bitwise_wrapper.shift_right (v : Nat) (carry : Bool) : Nat × Bool :=
  let new_carry := v.testBit 0
  (bset (byteOf v >>> 1) 7 carry, new_carry)

/-- Embedding of the free function `overflows(byte left, byte right)`
(byte.h): approximates the carry into bit 7 by `left.bit(6) && right.bit(6)`
and xors it with the carry out of bit 7. -/
def overflows (left right : Nat) : Bool :=
  let carry_in := left.testBit 6 && right.testBit 6
  let carry_out := (left.testBit 7 && right.testBit 7) ||
    (left.testBit 7 && carry_in) || (right.testBit 7 && carry_in)
  Bool.xor carry_in carry_out

/-- The two's-complement signed-overflow rule as the specification states it:
`a` and `b` have the same sign bit, and that sign bit differs from the sign
bit of their sum truncated to 8 bits.  Stated separately from `overflows`
so the two can be compared. -/
def overflowRule (a b : Nat) : Bool :=
  (a.testBit 7 == b.testBit 7) && (a.testBit 7 != ((a + b) % 256).testBit 7)

/-- Embedding of `struct status` (src/cpu/cpu.h): the six architectural
flags, each stored as a `bool`. -/
structure status where
  carry : Bool
  zero : Bool
  interrupt_disable : Bool
  decimal : Bool
  overflow : Bool
  negative : Bool
deriving DecidableEq

/-- Embedding of the `status` constructor / `operator=(byte)` (cpu.h):
each flag is read from its fixed bit position; bits 4 and 5 are never read. -/
def status.fromByte (b : Nat) : status :=
  { carry := b.testBit 0
    zero := b.testBit 1
    interrupt_disable := b.testBit 2
    decimal := b.testBit 3
    overflow := b.testBit 6
    negative := b.testBit 7 }

/-- Embedding of `status::value` (cpu.h):
`carry << 0 | zero << 1 | interrupt_disable << 2 | decimal << 3 |
overflow << 6 | negative << 7`. -/
def status.value (s : status) : Nat :=
  (b2n s.carry <<< 0) ||| (b2n s.zero <<< 1) ||| (b2n s.interrupt_disable <<< 2) |||
    (b2n s.decimal <<< 3) ||| (b2n s.overflow <<< 6) ||| (b2n s.negative <<< 7)

/-- Embedding of `status::instruction_value` (cpu.h): `value().set(5).set(4)`. -/
def status.instruction_value (s : status) : Nat :=
  bset (bset s.value 5 true) 4 true

/-- Embedding of `status::interrupt_value` (cpu.h): `value().set(5)`. -/
def status.interrupt_value (s : status) : Nat :=
  bset s.value 5 true

/-- Embedding of `status::logical(unsigned int result)` (cpu.h):
`zero = byte{result} == 0; negative = byte{result}.sign()`. -/
def status.logical (s : status) (result : Nat) : status :=
  { s with
    zero := decide (byteOf result = 0)
    negative := (byteOf result).testBit 7 }

/-- Embedding of `status::arithmetic(unsigned int result)` (cpu.h):
performs `logical(result)` then `carry = result > 0xff`. -/
def status.arithmetic (s : status) (result : Nat) : status :=
  { s.logical result with carry := decide (result > 0xff) }

/-- Embedding of `status::overflows(byte left, byte right, unsigned int result)`
(cpu.h): `overflow = (left.sign() == right.sign()) && (left.sign() != byte{result}.sign())`. -/
def status.overflows (s : status) (left right result : Nat) : status :=
  { s with
    overflow := (left.testBit 7 == right.testBit 7) &&
      (left.testBit 7 != (byteOf result).testBit 7) }

/-- Embedding of `class stack` (cpu.h).  The byte pointer is a natural
number kept below 256; `ram` is the CPU RAM the stack window
`[0x100, 0x200)` lives in (`_storage = ram.subspan(word{0x100}, ...)`,
so local index `pointer` is RAM address `0x100 + pointer`). -/
structure stack where
  pointer : Nat
  ram : Nat → Nat

/-- Embedding of `stack::push(byte)` (cpu.h): write at the current pointer
address (`_storage[pointer] = value`), then decrement the pointer;
`uint8_t` decrement wraps, written `(pointer + 255) % 256`. -/
def stack.push (s : stack) (v : Nat) : stack :=
  { pointer := (s.pointer + 255) % 256
    ram := fun a => if a = 0x100 + s.pointer then byteOf v else s.ram a }

/-- Embedding of `stack::pull` (cpu.h): increment the pointer first
(`uint8_t` increment wraps), then read at the new pointer address. -/
def stack.pull (s : stack) : stack × Nat :=
  let p := (s.pointer + 1) % 256
  ({ s with pointer := p }, s.ram (0x100 + p))

/-- Embedding of `class processor`'s register state (cpu.h). -/
structure processor where
  _stack : stack
  _status : status
  _accumulator : Nat
  _x : Nat
  _y : Nat
  _program_counter : Nat

/-- Embedding of the `processor` constructor (cpu.h): stack pointer defaulted
to `0xff`, `_status{0x24}`, accumulator and index registers zero, program
counter `0xfffd`.  The RAM contents are only captured by the stack view;
no register is initialised from memory. -/
def processor.init (ram : Nat → Nat) : processor :=
  { _stack := { pointer := 0xff, ram := ram }
    _status := status.fromByte 0x24
    _accumulator := 0
    _x := 0
    _y := 0
    _program_counter := 0xfffd }

/-- Embedding of `processor::adc` (instruction.cpp):
`result = _accumulator + operand + _status.carry` (computed at `int` width,
so untruncated), `_status.arithmetic(result)`, `_status.overflows(_accumulator,
operand, result)`, and the truncated result stored in the accumulator. -/
def processor.adc (p : processor) (operand : Nat) : processor :=
  let result := p._accumulator + operand + b2n p._status.carry
  let s := (p._status.arithmetic result).overflows p._accumulator operand result
  { p with _status := s, _accumulator := byteOf result }

/-- Embedding of `processor::compare(byte left, byte right)` (instruction.cpp).
`result = left - right` is `int` subtraction; `logical` receives it converted
to `unsigned int`, written here as the two's-complement value
`(left + 2^32 - right) % 2^32`.  Then `carry = left > right` (strict). -/
def processor.compare (p : processor) (left right : Nat) : processor :=
  let result := (left + 0x100000000 - right) % 0x100000000
  let s := { p._status.logical result with carry := decide (left > right) }
  { p with _status := s }

/-- Embedding of `processor::cmp` (instruction.cpp): `compare(_accumulator, operand)`. -/
def processor.cmp (p : processor) (operand : Nat) : processor :=
  p.compare p._accumulator operand

/-- Embedding of `processor::cpx` (instruction.cpp): `compare(_x, operand)`. -/
def processor.cpx (p : processor) (operand : Nat) : processor :=
  p.compare p._x operand

/-- Embedding of `processor::cpy` (instruction.cpp): `compare(_y, operand)`. -/
def processor.cpy (p : processor) (operand : Nat) : processor :=
  p.compare p._y operand

/-- Embedding of `processor::bit` (instruction.cpp), with the source's exact
grouping: `_status.zero = (_accumulator & operand == 0);` parses as
`_accumulator & (operand == 0)` because `==` binds tighter than `&` in C++,
and the resulting `int` is converted to `bool` (nonzero becomes `true`).
Overflow and negative copy bits 6 and 7 of the operand. -/
def processor.bit (p : processor) (operand : Nat) : processor :=
  { p with
    _status := { p._status with
      zero := decide (p._accumulator &&& b2n (decide (byteOf operand = 0)) ≠ 0)
      overflow := operand.testBit 6
      negative := operand.testBit 7 } }

/-- Embedding of `processor::shift_left(byte operand)` (instruction.cpp):
`_status.carry = operand.bit(7); operand.shift_left(); _status.arithmetic(operand);`
returning the shifted operand. -/
def processor.shift_left (p : processor) (operand : Nat) : processor × Nat :=
  let s1 := { p._status with carry := operand.testBit 7 }
  let v := (bitwise_wrapper.shift_left (byteOf operand) false).1
  ({ p with _status := s1.arithmetic v }, v)

/-- Embedding of `processor::shift_right(byte operand)` (instruction.cpp):
`_status.carry = operand.bit(0); operand.shift_right(); _status.arithmetic(operand);`
returning the shifted operand. -/
def processor.shift_right (p : processor) (operand : Nat) : processor × Nat :=
  let s1 := { p._status with carry := operand.testBit 0 }
  let v := (bitwise_wrapper.shift_right (byteOf operand) false).1
  ({ p with _status := s1.arithmetic v }, v)

/-- Embedding of `processor::asl()` (instruction.cpp):
`_accumulator = shift_left(_accumulator)`. -/
def processor.asl (p : processor) : processor :=
  let r := p.shift_left p._accumulator
  { r.1 with _accumulator := r.2 }

/-- Embedding of `processor::lsr()` (instruction.cpp):
`_accumulator = shift_right(_accumulator)`. -/
def processor.lsr (p : processor) : processor :=
  let r := p.shift_right p._accumulator
  { r.1 with _accumulator := r.2 }

/-- Embedding of `processor::rotate_left(byte operand)` (instruction.cpp):
`operand.rotate_left(_status.carry); _status.logical(operand);` — the C++
function is declared to return a `byte` but ends without a `return`
statement, so the value it hands back (stored by `rol`) is undefined; the
embedding returns `none` for it and models only the well-defined flag and
operand updates. -/
def processor.rotate_left (p : processor) (operand : Nat) : processor × Option Nat :=
  let r := bitwise_wrapper.shift_left (byteOf operand) p._status.carry
  let s := { p._status with carry := r.2 }.logical r.1
  ({ p with _status := s }, none)

/-- Embedding of `processor::rotate_right(byte operand)` (instruction.cpp):
like `rotate_left`, the rotated byte is never returned (missing `return`),
so the embedding returns `none` for it. -/
def processor.rotate_right (p : processor) (operand : Nat) : processor × Option Nat :=
  let r := bitwise_wrapper.shift_right (byteOf operand) p._status.carry
  let s := { p._status with carry := r.2 }.logical r.1
  ({ p with _status := s }, none)

/-- The four devices the memory bus can dispatch an access to. -/
inductive device where
  | ram
  | graphics
  | registers
  | cartridge
deriving DecidableEq

/-- Embedding of the dispatch chain shared by `memory::read` and
`memory::write` (memory.h): addresses below 0x2000 go to the CPU RAM,
below 0x4000 to the graphics (PPU) registers, below 0x4020 to the I/O
registers, and everything else to the cartridge. -/
def memory.map_device (address : Nat) : device :=
  if address < 0x2000 then device.ram
  else if address < 0x4000 then device.graphics
  else if address < 0x4020 then device.registers
  else device.cartridge

/-- Embedding of `segment::compute_index` (memory.h):
`(address - begin) % size`, converting a global address into an index into
the segment's backing storage. -/
def segment.compute_index (size base address : Nat) : Nat :=
  (address - base) % size

/-- Embedding of `segment::read` (memory.h): look up the backing storage at
the computed index. -/
def segment.read (storage : Nat → Nat) (size base address : Nat) : Nat :=
  storage (segment.compute_index size base address)

/-- Embedding of `struct rom_file` (rom.h), reduced to the fields the
cartridge constructor inspects: the mapper identifier and the PRG/CHR ROM
contents in bytes. -/
structure rom_file where
  mapper : Int
  prg_rom : List Nat
  chr_rom : List Nat

/-- The load-time errors `cartridge`'s constructor can raise (cartridge.h). -/
inductive rom_error where
  | unsupported_mapper
  | unsupported_prg_size
  | unsupported_chr_size
deriving DecidableEq

/-- Embedding of the cartridge state: the PRG and CHR ROM byte vectors. -/
structure cartridge where
  _prg_rom : List Nat
  _chr_rom : List Nat
deriving DecidableEq

/-- Embedding of the `cartridge(rom_file)` constructor's validation
(cartridge.h): throws for a mapper other than 0, a PRG ROM larger than
0x8000 bytes, or a CHR ROM larger than 0x2000 bytes; otherwise the
cartridge is constructed. -/
def cartridge.make (file : rom_file) : Except rom_error cartridge :=
  if file.mapper ≠ 0 then Except.error rom_error.unsupported_mapper
  else if file.prg_rom.length > 0x8000 then Except.error rom_error.unsupported_prg_size
  else if file.chr_rom.length > 0x2000 then Except.error rom_error.unsupported_chr_size
  else Except.ok ⟨file.prg_rom, file.chr_rom⟩

/-- Embedding of `cartridge::write` (cartridge.h): writes to ROM are a
no-op; the cartridge state is returned unchanged. -/
def cartridge.write (c : cartridge) (address data : Nat) : cartridge := c

/-- C1: `processor::adc` computes accumulator + operand + carry_in, stores the
result truncated to 8 bits, sets carry iff the untruncated sum exceeds 0xFF,
zero iff the truncated result is 0, negative to bit 7 of the truncated result,
and overflow by the two's-complement rule; in particular with
accumulator=0x50, operand=0x50, carry_in=0 it yields accumulator=0xA0,
carry=false, overflow=true, negative=true, zero=false. -/
theorem adc_spec :
    (∀ (p : processor) (m : Nat),
      (p.adc m)._accumulator = (p._accumulator + m + b2n p._status.carry) % 256 ∧
      (p.adc m)._status.carry =
        decide (p._accumulator + m + b2n p._status.carry > 0xff) ∧
      (p.adc m)._status.zero =
        decide ((p._accumulator + m + b2n p._status.carry) % 256 = 0) ∧
      (p.adc m)._status.negative =
        ((p._accumulator + m + b2n p._status.carry) % 256).testBit 7 ∧
      (p.adc m)._status.overflow =
        ((p._accumulator.testBit 7 == m.testBit 7) &&
          (p._accumulator.testBit 7 !=
            ((p._accumulator + m + b2n p._status.carry) % 256).testBit 7))) ∧
    ((({ processor.init (fun _ => 0) with _accumulator := 0x50 }).adc 0x50)._accumulator
        = 0xa0 ∧
      (({ processor.init (fun _ => 0) with _accumulator := 0x50 }).adc 0x50)._status.carry
        = false ∧
      (({ processor.init (fun _ => 0) with _accumulator := 0x50 }).adc 0x50)._status.overflow
        = true ∧
      (({ processor.init (fun _ => 0) with _accumulator := 0x50 }).adc 0x50)._status.negative
        = true ∧
      (({ processor.init (fun _ => 0) with _accumulator := 0x50 }).adc 0x50)._status.zero
        = false) :=
  ⟨fun _ _ => ⟨rfl, rfl, rfl, rfl, rfl⟩, by decide⟩

/-- C2: the free predicate `overflows(byte, byte)` passes the four
truth-table inputs from the spec, but at operands 0x7F and 0x01 it returns
`false` while the two's-complement rule (same sign bit, differing from the
sign bit of the 8-bit sum 0x80) gives `true`: the implementation
approximates the carry into bit 7 by `left.bit(6) && right.bit(6)`,
ignoring carry propagation from bits 0–5, contradicting its documented
purpose of detecting signed-addition overflow. -/
theorem overflows_misses_low_carry :
    overflows 0x7f 0x01 = false ∧
    overflowRule 0x7f 0x01 = true ∧
    overflows 0x50 0x50 = true ∧
    overflows 0xd0 0x90 = true ∧
    overflows 0x50 0x10 = false ∧
    overflows 0xd0 0xd0 = false := by decide

/-- C3: after `asl` the carry flag does not equal the bit shifted out of the
original operand.  `processor::shift_left` sets carry from bit 7 but then
calls `status::arithmetic`, whose `carry = result > 0xff` is always false
for the 8-bit shifted value: with accumulator 0x80 (bit 7 set) the claim
requires carry = true, yet the code leaves carry = false — and indeed carry
is false after `shift_left` for every processor state and operand. -/
theorem asl_carry_clobbered :
    ({ processor.init (fun _ => 0) with _accumulator := 0x80 }).asl._status.carry
        = false ∧
    Nat.testBit 0x80 7 = true ∧
    (∀ (p : processor) (operand : Nat),
      (p.shift_left operand).1._status.carry = false) ∧
    (∀ (p : processor) (operand : Nat),
      (p.shift_right operand).1._status.carry = false) := by
  refine ⟨rfl, by decide, ?_, ?_⟩
  · intro p operand
    show decide ((bitwise_wrapper.shift_left (byteOf operand) false).1 > 0xff) = false
    apply decide_eq_false
    simp only [bitwise_wrapper.shift_left, bset]
    omega
  · intro p operand
    show decide ((bitwise_wrapper.shift_right (byteOf operand) false).1 > 0xff) = false
    apply decide_eq_false
    simp only [bitwise_wrapper.shift_right, bset]
    omega

/-- C4: `processor::compare` sets `carry = left > right` (strict), so when
the compared values are equal the carry flag stays clear, although the claim
(and 6502 semantics, "carry set means no borrow") requires carry to be set
when left >= right.  With accumulator = operand = 0x10, `cmp` leaves
carry = false while zero = true and the accumulator unchanged. -/
theorem compare_carry_strict :
    (({ processor.init (fun _ => 0) with _accumulator := 0x10 }).cmp 0x10)._status.carry
        = false ∧
    (({ processor.init (fun _ => 0) with _accumulator := 0x10 }).cmp 0x10)._status.zero
        = true ∧
    (({ processor.init (fun _ => 0) with _accumulator := 0x10 }).cmp 0x10)._accumulator
        = 0x10 ∧
    (∀ (p : processor) (l r : Nat), l = r → (p.compare l r)._status.carry = false) := by
  refine ⟨by decide, by decide, rfl, ?_⟩
  intro p l r h
  show decide (l > r) = false
  apply decide_eq_false
  omega

/-- C5: `processor::bit` does not set the zero flag from `(A AND M) == 0`.
The source line `_status.zero = (_accumulator & operand == 0)` parses as
`_accumulator & (operand == 0)` (C++ precedence), so for any nonzero operand
the zero flag is always cleared: with accumulator 0x01 and operand 0x02 the
bitwise AND is 0 and the claim requires zero = true, but the code yields
zero = false.  Overflow and negative do copy bits 6 and 7 of the operand and
the accumulator is unmodified. -/
theorem bit_zero_flag_precedence :
    (({ processor.init (fun _ => 0) with _accumulator := 0x01 }).bit 0x02)._status.zero
        = false ∧
    (0x01 &&& 0x02) = 0 ∧
    (({ processor.init (fun _ => 0) with _accumulator := 0x01 }).bit 0x02)._status.overflow
        = false ∧
    (({ processor.init (fun _ => 0) with _accumulator := 0x01 }).bit 0x02)._status.negative
        = false ∧
    (({ processor.init (fun _ => 0) with _accumulator := 0x01 }).bit 0x02)._accumulator
        = 0x01 := by decide

/-- C6: pushing b1, b2, b3 and pulling three times yields b3, b2, b1 with the
stack pointer restored; push writes at address 0x0100 + pointer before
decrementing, pull increments before reading, and the pointer wraps mod 256
(0x00 to 0xFF on push, 0xFF to 0x00 on pull). -/
theorem stack_lifo (s : stack) (hp : s.pointer < 256) (b1 b2 b3 : Nat)
    (h1 : b1 < 256) (h2 : b2 < 256) (h3 : b3 < 256) :
    (((s.push b1).push b2).push b3).pull.2 = b3 ∧
    (((s.push b1).push b2).push b3).pull.1.pull.2 = b2 ∧
    (((s.push b1).push b2).push b3).pull.1.pull.1.pull.2 = b1 ∧
    (((s.push b1).push b2).push b3).pull.1.pull.1.pull.1.pointer = s.pointer ∧
    (s.push b1).ram (0x100 + s.pointer) = b1 ∧
    (s.push b1).pointer = (s.pointer + 255) % 256 ∧
    (s.pointer = 0 → (s.push b1).pointer = 255) ∧
    (s.pointer = 255 → s.pull.1.pointer = 0) := by
  obtain ⟨p, ram⟩ := s
  refine ⟨?_, ?_, ?_, ?_, ?_, ?_, ?_, ?_⟩ <;>
    (simp only [stack.push, stack.pull, byteOf] at hp ⊢) <;>
    (first
      | (intro h; omega)
      | (split_ifs <;> omega)
      | omega)

/-- C6 witness: the law at pointer 0xFF with bytes 1, 2, 3. -/
theorem stack_lifo_witness :
    (⟨255, fun _ => 0⟩ : stack).pointer < 256 ∧
    (1 : Nat) < 256 ∧ (2 : Nat) < 256 ∧ (3 : Nat) < 256 ∧
    ((((⟨255, fun _ => 0⟩ : stack).push 1).push 2).push 3).pull.2 = 3 ∧
    ((((⟨255, fun _ => 0⟩ : stack).push 1).push 2).push 3).pull.1.pull.2 = 2 ∧
    ((((⟨255, fun _ => 0⟩ : stack).push 1).push 2).push 3).pull.1.pull.1.pull.2 = 1 ∧
    ((((⟨255, fun _ => 0⟩ : stack).push 1).push 2).push 3).pull.1.pull.1.pull.1.pointer
        = (⟨255, fun _ => 0⟩ : stack).pointer ∧
    ((⟨255, fun _ => 0⟩ : stack).push 1).ram
        (0x100 + (⟨255, fun _ => 0⟩ : stack).pointer) = 1 ∧
    ((⟨255, fun _ => 0⟩ : stack).push 1).pointer
        = ((⟨255, fun _ => 0⟩ : stack).pointer + 255) % 256 ∧
    ((⟨255, fun _ => 0⟩ : stack).pointer = 0 →
      ((⟨255, fun _ => 0⟩ : stack).push 1).pointer = 255) ∧
    ((⟨255, fun _ => 0⟩ : stack).pointer = 255 →
      (⟨255, fun _ => 0⟩ : stack).pull.1.pointer = 0) := by
  have h := stack_lifo ⟨255, fun _ => 0⟩ (by decide) 1 2 3 (by decide) (by decide) (by decide)
  exact ⟨by decide, by decide, by decide, by decide, h⟩

set_option maxRecDepth 8192 in
/-- C7: serializing the six flags with `instruction_value()` (bits 4 and 5
forced set) and restoring a status from that byte reproduces the original
flags, and restoring from any byte ignores bits 4 and 5 entirely (forcing
them to any value leaves the restored status unchanged). -/
theorem status_roundtrip :
    (∀ c z i d v n : Bool,
      status.fromByte (status.instruction_value ⟨c, z, i, d, v, n⟩)
        = ⟨c, z, i, d, v, n⟩) ∧
    (∀ (b : Fin 256) (x y : Bool),
      status.fromByte (bset (bset b.val 4 x) 5 y) = status.fromByte b.val) := by
  constructor
  · intro c z i d v n
    cases c <;> cases z <;> cases i <;> cases d <;> cases v <;> cases n <;> decide
  · decide

/-- C8: the memory bus routes each address to the single device owning its
range — 0x1FFF to RAM, 0x2000 to the graphics registers, 0x4020 to the
cartridge — and a segment accesses its backing storage at index
(address - base) mod size, so the 2 KB RAM segment mirrors every 0x800
bytes. -/
theorem bus_dispatch :
    memory.map_device 0x1fff = device.ram ∧
    memory.map_device 0x2000 = device.graphics ∧
    memory.map_device 0x4020 = device.cartridge ∧
    (∀ (storage : Nat → Nat) (size base address : Nat),
      segment.read storage size base address = storage ((address - base) % size)) ∧
    (∀ (storage : Nat → Nat) (address : Nat),
      segment.read storage 0x800 0 address
        = segment.read storage 0x800 0 (address % 0x800)) := by
  refine ⟨by decide, by decide, by decide, fun _ _ _ _ => rfl, ?_⟩
  intro storage address
  show storage ((address - 0) % 0x800) = storage ((address % 0x800 - 0) % 0x800)
  congr 1
  omega

/-- C9: cartridge construction fails exactly when the mapper is not 0, the
PRG ROM exceeds 0x8000 bytes, or the CHR ROM exceeds 0x2000 bytes; and a
write to the cartridge is accepted as a no-op, leaving its state unchanged. -/
theorem cartridge_validation :
    (∀ f : rom_file,
      (∃ c, cartridge.make f = Except.ok c) ↔
        (f.mapper = 0 ∧ f.prg_rom.length ≤ 0x8000 ∧ f.chr_rom.length ≤ 0x2000)) ∧
    (∀ (c : cartridge) (address data : Nat), cartridge.write c address data = c) := by
  constructor
  · intro f
    simp only [cartridge.make]
    split_ifs with h1 h2 h3 <;> simp_all
  · intro c address data
    rfl

/-- C10: after construction the processor state is fixed: accumulator, X and
Y are 0, the stack pointer is 0xFF, the status is restored from byte 0x24
(only interrupt-disable set), and the program counter is 0xFFFD for every
RAM content — so the reset vector is not read during construction. -/
theorem processor_init_state :
    ∀ ram : Nat → Nat,
      (processor.init ram)._accumulator = 0 ∧
      (processor.init ram)._x = 0 ∧
      (processor.init ram)._y = 0 ∧
      (processor.init ram)._stack.pointer = 0xff ∧
      (processor.init ram)._status =
        { carry := false, zero := false, interrupt_disable := true,
          decimal := false, overflow := false, negative := false } ∧
      (processor.init ram)._program_counter = 0xfffd :=
  fun _ => ⟨rfl, rfl, rfl, rfl, rfl, rfl⟩

end nes
